import Mathlib

/-
Verification of the warehouse financial-modeling core
(`calculations.py`, `data_model.py`) against its specification.

All Python floats are embedded as exact rationals (ℚ); the spec's
properties are stated in exact real arithmetic, which the rational
embedding reflects faithfully for the arithmetic at hand.  The literal
`1e-9` becomes `1 / 1000000000`, `0.0001` becomes `1 / 10000`, and the
mode strings are kept verbatim.
-/

/-- Embedding of `data_model.WarehouseParams`: the parameter record.
Field names follow the dataclass; `useful_area_fraction` stands for the
useful-area ratio field.  Derived fields default to `0` exactly as the
dataclass defaults them to `0.0`. -/
structure WarehouseParams where
  total_area : ℚ
  rental_cost_per_m2 : ℚ
  useful_area_fraction : ℚ
  mode : String
  storage_share : ℚ
  loan_share : ℚ
  vip_share : ℚ
  short_term_share : ℚ
  storage_area_manual : ℚ
  loan_area_manual : ℚ
  vip_area_manual : ℚ
  short_term_area_manual : ℚ
  storage_fee : ℚ
  shelves_per_m2 : ℚ
  short_term_daily_rate : ℚ
  vip_extra_fee : ℚ
  item_evaluation : ℚ
  item_realization_markup : ℚ
  average_item_value : ℚ
  loan_interest_rate : ℚ
  realization_share_storage : ℚ
  realization_share_loan : ℚ
  realization_share_vip : ℚ
  realization_share_short_term : ℚ
  storage_items_density : ℚ
  loan_items_density : ℚ
  vip_items_density : ℚ
  short_term_items_density : ℚ
  salary_expense : ℚ
  miscellaneous_expenses : ℚ
  depreciation_expense : ℚ
  marketing_expenses : ℚ
  insurance_expenses : ℚ
  taxes : ℚ
  utilities_expenses : ℚ
  maintenance_expenses : ℚ
  one_time_setup_cost : ℚ
  one_time_equipment_cost : ℚ
  one_time_other_costs : ℚ
  one_time_legal_cost : ℚ
  one_time_logistics_cost : ℚ
  time_horizon : ℤ
  monthly_rent_growth : ℚ
  default_probability : ℚ
  liquidity_factor : ℚ
  safety_factor : ℚ
  loan_grace_period : ℤ
  monthly_income_growth : ℚ
  monthly_expenses_growth : ℚ
  forecast_method : String
  monte_carlo_simulations : ℤ
  monte_carlo_deviation : ℚ
  monte_carlo_seed : ℤ
  enable_ml_settings : Bool
  one_time_expenses : ℚ := 0
  usable_area : ℚ := 0
  storage_area : ℚ := 0
  loan_area : ℚ := 0
  vip_area : ℚ := 0
  short_term_area : ℚ := 0
  payback_period : ℚ := 0

/-- The mode string the code compares against for proportional mode. -/
def autoMode : String := "Автоматический"

/-- The float-noise epsilon `1e-9` used by the validator and allocator. -/
def epsShare : ℚ := 1 / 1000000000

/-- Embedding of `data_model.validate_inputs`: returns `(ok, message)`,
rules checked in the source's order, returning at the first failure. -/
def validate_inputs (params : WarehouseParams) : Bool × String :=
  if params.total_area ≤ 0 then
    (false, "Общая площадь должна быть больше нуля.")
  else if ¬ (0 < params.useful_area_fraction ∧ params.useful_area_fraction ≤ 1) then
    (false, "Доля полезной площади должна быть между 0 и 1.")
  else if params.mode = autoMode then
    let total_share := params.storage_share + params.loan_share +
      params.vip_share + params.short_term_share
    if |total_share| < epsShare then
      (false, "Сумма долей видов хранения должна быть больше нуля.")
    else if total_share > 1 then
      (false, "Сумма долей видов хранения не должна превышать 100%.")
    else
      (true, "")
  else
    let total_manual_area := params.storage_area_manual + params.loan_area_manual +
      params.vip_area_manual + params.short_term_area_manual
    let usable_area := params.total_area * params.useful_area_fraction
    if total_manual_area = 0 then
      (false, "Сумма вручную введённых площадей должна быть больше нуля.")
    else if total_manual_area > usable_area then
      (false, "Сумма вручную введённых площадей (" ++ toString total_manual_area ++
        " м²) превышает полезную площадь (" ++ toString usable_area ++ " м²).")
    else
      (true, "")

/-- Result mapping of `calculations.calculate_areas`. -/
structure AreasResult where
  usable_area : ℚ
  storage_area : ℚ
  loan_area : ℚ
  vip_area : ℚ
  short_term_area : ℚ
deriving Repr, DecidableEq

/-- Embedding of `calculations.calculate_areas`: distributes usable floor
area across the four storage classes, proportionally from shares in
`"Автоматический"` mode and from the manual inputs otherwise, with the
overflow-scaling rule.  The inner `if total_share > 0` guards mirror the
source even though they are implied by `¬ total_share < 1e-9` being
tested first. -/
def calculate_areas (params : WarehouseParams) : AreasResult :=
  let usable_area := params.total_area * params.useful_area_fraction
  if params.mode = autoMode then
    let total_share := params.storage_share + params.loan_share +
      params.vip_share + params.short_term_share
    if total_share < epsShare then
      { usable_area := usable_area, storage_area := 0, loan_area := 0,
        vip_area := 0, short_term_area := 0 }
    else
      let f_storage := if total_share > 0 then params.storage_share / total_share else 0
      let f_loan := if total_share > 0 then params.loan_share / total_share else 0
      let f_vip := if total_share > 0 then params.vip_share / total_share else 0
      let f_short := if total_share > 0 then params.short_term_share / total_share else 0
      { usable_area := usable_area
        storage_area := usable_area * f_storage
        loan_area := usable_area * f_loan
        vip_area := usable_area * f_vip
        short_term_area := usable_area * f_short }
  else
    let total_manual := params.storage_area_manual + params.loan_area_manual +
      params.vip_area_manual + params.short_term_area_manual
    if total_manual > usable_area ∧ total_manual > 0 then
      let factor := usable_area / total_manual
      { usable_area := usable_area
        storage_area := params.storage_area_manual * factor
        loan_area := params.loan_area_manual * factor
        vip_area := params.vip_area_manual * factor
        short_term_area := params.short_term_area_manual * factor }
    else
      { usable_area := usable_area
        storage_area := params.storage_area_manual
        loan_area := params.loan_area_manual
        vip_area := params.vip_area_manual
        short_term_area := params.short_term_area_manual }

/-- Embedding of `calculations.calculate_items`:
`area × shelves × density`. -/
def calculate_items (area shelves density : ℚ) : ℚ :=
  area * shelves * density

/-- Result mapping of `calculations.calculate_financials`. -/
structure FinancialResult where
  total_income : ℚ
  total_expenses : ℚ
  profit : ℚ
  storage_income : ℚ
  short_term_income : ℚ
  realization_income : ℚ
  loan_income_after_realization : ℚ
  vip_income : ℚ
  marketing_income : ℚ
  daily_storage_fee : ℚ
  storage_realization : ℚ
  loan_realization : ℚ
  vip_realization : ℚ
  short_term_realization : ℚ
  storage_items : ℚ
  loan_items : ℚ
  vip_items : ℚ
  short_term_items : ℚ
deriving Repr, DecidableEq

/-- The sum of the five one-time cost lines, as computed (and written back
to the parameter record) by `calculate_financials`. -/
def one_time_total (params : WarehouseParams) : ℚ :=
  params.one_time_setup_cost + params.one_time_equipment_cost +
    params.one_time_other_costs + params.one_time_legal_cost +
    params.one_time_logistics_cost

/-- Embedding of `calculations.calculate_financials`: item counts,
per-class revenue, loan interest, resale revenue, monthly expenses,
one-time costs and profit.  The source mutates
`params.one_time_expenses := total_one_time` before using it in the
profit formula; the embedding uses the freshly computed `total_one_time`
there, which is the same value.  `disable_extended` is accepted and
unused, as in the source. -/
def calculate_financials (params : WarehouseParams) (disable_extended : Bool) :
    FinancialResult :=
  let _ := disable_extended
  let storage_items := calculate_items params.storage_area params.shelves_per_m2 params.storage_items_density
  let loan_items := calculate_items params.loan_area params.shelves_per_m2 params.loan_items_density
  let vip_items := calculate_items params.vip_area params.shelves_per_m2 params.vip_items_density
  let short_term_items := calculate_items params.short_term_area params.shelves_per_m2 params.short_term_items_density
  let storage_income := params.storage_area * params.storage_fee
  let vip_income := params.vip_area * (params.storage_fee + params.vip_extra_fee)
  let short_term_income := params.short_term_area * params.short_term_daily_rate * 30
  let loan_evaluated_value := params.average_item_value * params.item_evaluation * loan_items
  let daily_loan_interest_rate := if params.loan_interest_rate > 0 then params.loan_interest_rate / 100 else 0
  let loan_income := if params.loan_interest_rate > 0 then
    loan_evaluated_value * daily_loan_interest_rate * (1 - params.default_probability) * 30 else 0
  let storage_realization_items := storage_items * params.realization_share_storage
  let loan_realization_items := loan_items * params.realization_share_loan
  let vip_realization_items := vip_items * params.realization_share_vip
  let short_term_realization_items := short_term_items * params.realization_share_short_term
  let storage_realization := params.average_item_value * params.item_evaluation *
    storage_realization_items * (params.item_realization_markup / 100)
  let loan_realization := params.average_item_value * params.item_evaluation *
    loan_realization_items * (params.item_realization_markup / 100)
  let vip_realization := params.average_item_value * params.item_evaluation *
    vip_realization_items * (params.item_realization_markup / 100)
  let short_term_realization := params.average_item_value * params.item_evaluation *
    short_term_realization_items * (params.item_realization_markup / 100)
  let realization_income := storage_realization + loan_realization + vip_realization + short_term_realization
  let marketing_income : ℚ := 0
  let total_income := storage_income + short_term_income + realization_income +
    loan_income + vip_income + marketing_income
  let monthly_rent := params.total_area * params.rental_cost_per_m2
  let total_monthly_expenses := monthly_rent + params.salary_expense + params.miscellaneous_expenses +
    params.depreciation_expense + params.marketing_expenses + params.insurance_expenses +
    params.taxes + params.utilities_expenses + params.maintenance_expenses
  let total_one_time := one_time_total params
  let profit := if params.time_horizon > 0 then
    total_income - total_monthly_expenses - total_one_time / (params.time_horizon : ℚ)
  else
    total_income - total_monthly_expenses
  let daily_storage_fee := if params.storage_fee > 0 then params.storage_fee / 30 else 0
  { total_income := total_income
    total_expenses := total_monthly_expenses
    profit := profit
    storage_income := storage_income
    short_term_income := short_term_income
    realization_income := realization_income
    loan_income_after_realization := loan_income
    vip_income := vip_income
    marketing_income := marketing_income
    daily_storage_fee := daily_storage_fee
    storage_realization := storage_realization
    loan_realization := loan_realization
    vip_realization := vip_realization
    short_term_realization := short_term_realization
    storage_items := storage_items
    loan_items := loan_items
    vip_items := vip_items
    short_term_items := short_term_items }

/-- Return type of the break-even calculator: the source returns the
Python float `inf` when total income is zero and a finite number
otherwise. -/
inductive BepResult where
  | posInf : BepResult
  | val : ℚ → BepResult
deriving Repr, DecidableEq

/-- Embedding of `calculations.calculate_total_bep`: required income to
cover monthly expenses plus amortized one-time expenses; `posInf` when
total income is zero.  `one_time_expenses` is read from the parameter
record, where the engine stored it. -/
def calculate_total_bep (financials : FinancialResult) (params : WarehouseParams) :
    BepResult :=
  let total_income := financials.total_income
  let total_expenses := financials.total_expenses +
    (if params.time_horizon > 0 then params.one_time_expenses / (params.time_horizon : ℚ) else 0)
  if total_income = 0 then
    BepResult.posInf
  else
    BepResult.val total_expenses

/-- Embedding of `calculations.min_loan_amount_for_bep`: minimum loan
principal per item needed to cover expenses via loan interest. -/
def min_loan_amount_for_bep (params : WarehouseParams) (fin : FinancialResult) : ℚ :=
  let total_exp := if params.time_horizon > 0 then
    fin.total_expenses + params.one_time_expenses / (params.time_horizon : ℚ)
  else
    fin.total_expenses
  let loan_items := fin.loan_items
  if loan_items ≤ 0 then
    0
  else
    let daily_loan_interest_rate := if params.loan_interest_rate > 0 then
      params.loan_interest_rate / 100 else 1 / 10000
    let min_loan_value := (total_exp / loan_items) / (daily_loan_interest_rate * 30)
    max min_loan_value 0

/-- Outcome of the external root-finder `numpy_financial.irr`, which is a
library call outside this repository: it can return a number, return
`None`, return NaN, or raise.  `calculate_irr` is defined over this
outcome, mirroring exactly the checks the source performs on it. -/
inductive IrrOutcome where
  | value : ℚ → IrrOutcome
  | undefinedNone : IrrOutcome
  | undefinedNaN : IrrOutcome
  | raised : IrrOutcome
deriving Repr, DecidableEq

/-- Whether the solver outcome is a failure (no usable number). -/
def IrrOutcome.isFailure : IrrOutcome → Bool
  | IrrOutcome.value _ => false
  | _ => true

/-- Embedding of `calculations.calculate_irr`: runs the solver on the
cash flows inside a try/except; a numeric result is scaled to percent,
every failure (exception, `None`, NaN) is absorbed and reported as 0. -/
def calculate_irr (solver : List ℚ → IrrOutcome) (cash_flows : List ℚ) : ℚ :=
  match solver cash_flows with
  | IrrOutcome.value x => x * 100
  | IrrOutcome.undefinedNone => 0
  | IrrOutcome.undefinedNaN => 0
  | IrrOutcome.raised => 0

/-- A model of the process-wide numpy pseudo-random generator used by
`monte_carlo_simulation`: a generator state (ℕ), a reseeding function
modelling `np.random.seed`, and a single-draw function modelling one
uniform draw from `np.random.uniform(lo, hi, ...)` together with the
successor state. -/
structure RngImpl where
  seedFn : ℤ → ℕ
  uniformStep : ℚ → ℚ → ℕ → ℚ × ℕ

/-- Draw `n` uniform values in `[lo, hi]` from the generator, threading
the generator state; models `np.random.uniform(lo, hi, shape)` flattened
in row-major order. -/
def drawList (rng : RngImpl) (lo hi : ℚ) : ℕ → ℕ → List ℚ × ℕ
  | 0, s => ([], s)
  | n + 1, s =>
    let p := rng.uniformStep lo hi s
    let rest := drawList rng lo hi n p.2
    (p.1 :: rest.1, rest.2)

/-- One row of the forecast table produced by the Monte Carlo simulator:
month index and trial-averaged income, expense and profit. -/
structure ForecastRow where
  month : ℕ
  avg_income : ℚ
  avg_expense : ℚ
  avg_profit : ℚ
deriving Repr, DecidableEq

/-- Column `j` (0-based month index) of a flat row-major
`sims × time_horizon` matrix of draws. -/
def factorColumn (time_horizon j : ℕ) (flat : List ℚ) (sims : ℕ) : List ℚ :=
  (List.range sims).map (fun i => flat.getD (i * time_horizon + j) 0)

/-- Embedding of `calculations.monte_carlo_simulation`.  The source's
first statement is `np.random.seed(seed)`: the pre-existing global
generator state is the extra argument `globalState`, and it is discarded
by the reseeding before any draw happens.  Then `simulations ×
time_horizon` income factors and as many expense factors are drawn from
the reseeded stream, incomes/expenses are the base values times the
compound growth for the month times the factor, and each month's column
is averaged over the trials. -/
def monte_carlo_simulation (rng : RngImpl) (base_income base_expenses : ℚ)
    (time_horizon simulations : ℕ) (deviation : ℚ) (seed : ℤ)
    (monthly_income_growth monthly_expenses_growth : ℚ)
    (globalState : ℕ) : List ForecastRow :=
  let _ := globalState
  let s0 := rng.seedFn seed
  let lo := 1 - deviation
  let hi := 1 + deviation
  let incDraw := drawList rng lo hi (simulations * time_horizon) s0
  let expDraw := drawList rng lo hi (simulations * time_horizon) incDraw.2
  (List.range time_horizon).map (fun j =>
    let m := j + 1
    let income_growth := (1 + monthly_income_growth) ^ m
    let expense_growth := (1 + monthly_expenses_growth) ^ m
    let incomes := (factorColumn time_horizon j incDraw.1 simulations).map
      (fun f => base_income * income_growth * f)
    let expenses := (factorColumn time_horizon j expDraw.1 simulations).map
      (fun f => base_expenses * expense_growth * f)
    let profits := (incomes.zip expenses).map (fun q => q.1 - q.2)
    { month := m
      avg_income := incomes.sum / (simulations : ℚ)
      avg_expense := expenses.sum / (simulations : ℚ)
      avg_profit := profits.sum / (simulations : ℚ) })

/-- The four-share sum computed inside the validator and the allocator. -/
def total_share (params : WarehouseParams) : ℚ :=
  params.storage_share + params.loan_share + params.vip_share + params.short_term_share

/-- The manual-area sum computed inside the validator and the allocator. -/
def total_manual (params : WarehouseParams) : ℚ :=
  params.storage_area_manual + params.loan_area_manual +
    params.vip_area_manual + params.short_term_area_manual

/-- `usable_area = total_area * useful_area_ratio`, the quantity both the
validator and the allocator recompute. -/
def usable_area_of (params : WarehouseParams) : ℚ :=
  params.total_area * params.useful_area_fraction

/-- The parameter record with all four shares multiplied by `c`, used to
state scale invariance of the proportional allocator. -/
def scaleShares (c : ℚ) (params : WarehouseParams) : WarehouseParams :=
  { params with
    storage_share := c * params.storage_share
    loan_share := c * params.loan_share
    vip_share := c * params.vip_share
    short_term_share := c * params.short_term_share }

/-- The concrete parameter record used by the repository's own test
suite (`test_calculations.py`), embedded verbatim with floats as exact
rationals. -/
def sampleParams : WarehouseParams :=
  { total_area := 100
    rental_cost_per_m2 := 10
    useful_area_fraction := 1 / 2
    mode := "Автоматический"
    storage_share := 1 / 4
    loan_share := 1 / 4
    vip_share := 1 / 4
    short_term_share := 1 / 4
    storage_area_manual := 0
    loan_area_manual := 0
    vip_area_manual := 0
    short_term_area_manual := 0
    storage_fee := 15
    shelves_per_m2 := 3
    short_term_daily_rate := 6
    vip_extra_fee := 10
    item_evaluation := 4 / 5
    item_realization_markup := 20
    average_item_value := 15000
    loan_interest_rate := 317 / 1000
    realization_share_storage := 1 / 2
    realization_share_loan := 1 / 2
    realization_share_vip := 1 / 2
    realization_share_short_term := 1 / 2
    storage_items_density := 5
    loan_items_density := 1
    vip_items_density := 2
    short_term_items_density := 4
    salary_expense := 240000
    miscellaneous_expenses := 50000
    depreciation_expense := 20000
    marketing_expenses := 30000
    insurance_expenses := 10000
    taxes := 50000
    utilities_expenses := 20000
    maintenance_expenses := 15000
    one_time_setup_cost := 100000
    one_time_equipment_cost := 200000
    one_time_other_costs := 50000
    one_time_legal_cost := 20000
    one_time_logistics_cost := 30000
    time_horizon := 6
    monthly_rent_growth := 1 / 100
    default_probability := 1 / 20
    liquidity_factor := 1
    safety_factor := 6 / 5
    loan_grace_period := 0
    monthly_income_growth := 0
    monthly_expenses_growth := 0
    forecast_method := "Базовый"
    monte_carlo_simulations := 100
    monte_carlo_deviation := 1 / 10
    monte_carlo_seed := 42
    enable_ml_settings := false }

/-- Characterization of a successful validation: the exact conjunction
of conditions under which `validate_inputs` reaches `(true, "")`. -/
theorem validate_ok_iff (p : WarehouseParams) :
    (validate_inputs p).1 = true ↔
      0 < p.total_area ∧ 0 < p.useful_area_fraction ∧ p.useful_area_fraction ≤ 1 ∧
      (p.mode = autoMode → epsShare ≤ |total_share p| ∧ total_share p ≤ 1) ∧
      (¬ p.mode = autoMode → total_manual p ≠ 0 ∧ total_manual p ≤ usable_area_of p) := by
  unfold validate_inputs total_share total_manual usable_area_of
  dsimp only
  split_ifs with h1 h2 h3 h4 h5 h6 h7 <;> simp_all

/-- The proportional branch of the allocator when the share sum clears
the `1e-9` cutoff: each class gets `usable_area * (share / total_share)`.
The inner `total_share > 0` guards collapse because
`epsShare ≤ total_share` makes the sum positive. -/
theorem calculate_areas_auto_pos (p : WarehouseParams) (hm : p.mode = autoMode)
    (h : epsShare ≤ total_share p) :
    calculate_areas p =
      { usable_area := usable_area_of p
        storage_area := usable_area_of p * (p.storage_share / total_share p)
        loan_area := usable_area_of p * (p.loan_share / total_share p)
        vip_area := usable_area_of p * (p.vip_share / total_share p)
        short_term_area := usable_area_of p * (p.short_term_share / total_share p) } := by
  have hpos : 0 < total_share p := lt_of_lt_of_le (by norm_num [epsShare]) h
  unfold total_share at h hpos ⊢
  unfold calculate_areas usable_area_of
  dsimp only
  split_ifs with c1 <;> first | rfl | exact absurd c1 (not_lt.mpr h)

/-- The proportional branch of the allocator when the share sum is below
the `1e-9` cutoff: all four class areas are zero. -/
theorem calculate_areas_auto_zero (p : WarehouseParams) (hm : p.mode = autoMode)
    (h : total_share p < epsShare) :
    calculate_areas p =
      { usable_area := usable_area_of p, storage_area := 0, loan_area := 0,
        vip_area := 0, short_term_area := 0 } := by
  unfold total_share at h
  unfold calculate_areas usable_area_of
  dsimp only
  split_ifs with c1 <;> first | rfl | exact absurd h c1

/-- The manual branch of the allocator when the manual sum does not
exceed usable area: areas pass through unchanged. -/
theorem calculate_areas_manual_pass (p : WarehouseParams) (hm : ¬ p.mode = autoMode)
    (h : total_manual p ≤ usable_area_of p) :
    calculate_areas p =
      { usable_area := usable_area_of p
        storage_area := p.storage_area_manual
        loan_area := p.loan_area_manual
        vip_area := p.vip_area_manual
        short_term_area := p.short_term_area_manual } := by
  unfold total_manual at h
  unfold calculate_areas usable_area_of
  dsimp only
  split_ifs with c1
  · exact absurd c1.1 (not_lt.mpr h)
  · rfl

/-- The manual branch of the allocator when the manual sum exceeds the
usable area and is positive: each area is scaled by
`usable_area / total_manual`. -/
theorem calculate_areas_manual_scaled (p : WarehouseParams) (hm : ¬ p.mode = autoMode)
    (h1 : usable_area_of p < total_manual p) (h2 : 0 < total_manual p) :
    calculate_areas p =
      { usable_area := usable_area_of p
        storage_area := p.storage_area_manual * (usable_area_of p / total_manual p)
        loan_area := p.loan_area_manual * (usable_area_of p / total_manual p)
        vip_area := p.vip_area_manual * (usable_area_of p / total_manual p)
        short_term_area := p.short_term_area_manual * (usable_area_of p / total_manual p) } := by
  unfold total_manual at h1 h2
  unfold calculate_areas usable_area_of
  dsimp only
  split_ifs with c1
  · rfl
  · exact absurd ⟨h1, h2⟩ c1

/-- Claim C1: for every parameter record that the validator accepts, the
allocator reports `usable_area = total_area * useful_area_ratio` and the
four allocated areas sum to at most the usable area, in both the
proportional and the manual mode (the bound is exact, hence holds a
fortiori up to any ε ≥ 0). -/
theorem C1_allocation_invariant (p : WarehouseParams)
    (h : (validate_inputs p).1 = true) :
    (calculate_areas p).usable_area = p.total_area * p.useful_area_fraction ∧
    (calculate_areas p).storage_area + (calculate_areas p).loan_area +
      (calculate_areas p).vip_area + (calculate_areas p).short_term_area ≤
      (calculate_areas p).usable_area := by
  rcases (validate_ok_iff p).mp h with ⟨hA, hf0, hf1, hauto, hman⟩
  have husable : 0 < usable_area_of p := mul_pos hA hf0
  by_cases hm : p.mode = autoMode
  · rcases hauto hm with ⟨habs, hle⟩
    by_cases hz : total_share p < epsShare
    · rw [calculate_areas_auto_zero p hm hz]
      refine ⟨rfl, ?_⟩
      simpa using le_of_lt husable
    · have hge : epsShare ≤ total_share p := le_of_not_lt hz
      have hS : (0:ℚ) < total_share p := lt_of_lt_of_le (by norm_num [epsShare]) hge
      rw [calculate_areas_auto_pos p hm hge]
      refine ⟨rfl, le_of_eq ?_⟩
      have hS' : total_share p ≠ 0 := ne_of_gt hS
      unfold total_share at hS' ⊢
      field_simp
      ring
  · rcases hman hm with ⟨hne, hle⟩
    rw [calculate_areas_manual_pass p hm hle]
    refine ⟨rfl, ?_⟩
    unfold total_manual usable_area_of at hle
    exact hle

/-- Witness for C1 at the test suite's record (proportional mode). -/
theorem C1_allocation_invariant_witness :
    (validate_inputs sampleParams).1 = true ∧
    ((calculate_areas sampleParams).usable_area =
      sampleParams.total_area * sampleParams.useful_area_fraction ∧
    (calculate_areas sampleParams).storage_area + (calculate_areas sampleParams).loan_area +
      (calculate_areas sampleParams).vip_area + (calculate_areas sampleParams).short_term_area ≤
      (calculate_areas sampleParams).usable_area) :=
  ⟨by norm_num [validate_inputs, sampleParams, epsShare, autoMode],
    C1_allocation_invariant sampleParams
      (by norm_num [validate_inputs, sampleParams, epsShare, autoMode])⟩

/-- The manual branch of the allocator when the manual sum is not
positive: areas pass through unchanged even when the sum exceeds the
usable area, because the overflow test also requires `total_manual > 0`. -/
theorem calculate_areas_manual_nonpos (p : WarehouseParams) (hm : ¬ p.mode = autoMode)
    (h : total_manual p ≤ 0) :
    calculate_areas p =
      { usable_area := usable_area_of p
        storage_area := p.storage_area_manual
        loan_area := p.loan_area_manual
        vip_area := p.vip_area_manual
        short_term_area := p.short_term_area_manual } := by
  unfold total_manual at h
  unfold calculate_areas usable_area_of
  dsimp only
  split_ifs with c1
  · exact absurd c1.2 (not_lt.mpr h)
  · rfl

/-- Claim C10: in proportional mode, when the share sum clears the `1e-9`
cutoff each class receives `usable_area * (share / share_sum)` and the
four areas sum exactly to the usable area; when the sum is below the
cutoff (including any negative sum) all four areas are zero while
`usable_area` is still reported as `total_area * useful_area_ratio`. -/
theorem C10_proportional_normalization (p : WarehouseParams)
    (hm : p.mode = autoMode) :
    (epsShare ≤ total_share p →
      (calculate_areas p).storage_area =
        usable_area_of p * (p.storage_share / total_share p) ∧
      (calculate_areas p).loan_area =
        usable_area_of p * (p.loan_share / total_share p) ∧
      (calculate_areas p).vip_area =
        usable_area_of p * (p.vip_share / total_share p) ∧
      (calculate_areas p).short_term_area =
        usable_area_of p * (p.short_term_share / total_share p) ∧
      (calculate_areas p).storage_area + (calculate_areas p).loan_area +
        (calculate_areas p).vip_area + (calculate_areas p).short_term_area =
        (calculate_areas p).usable_area) ∧
    (total_share p < epsShare →
      (calculate_areas p).storage_area = 0 ∧ (calculate_areas p).loan_area = 0 ∧
      (calculate_areas p).vip_area = 0 ∧ (calculate_areas p).short_term_area = 0 ∧
      (calculate_areas p).usable_area = p.total_area * p.useful_area_fraction) := by
  constructor
  · intro h
    have hS : total_share p ≠ 0 :=
      ne_of_gt (lt_of_lt_of_le (by norm_num [epsShare]) h)
    rw [calculate_areas_auto_pos p hm h]
    refine ⟨rfl, rfl, rfl, rfl, ?_⟩
    have h1 : p.storage_share / total_share p + p.loan_share / total_share p +
        p.vip_share / total_share p + p.short_term_share / total_share p = 1 := by
      rw [div_add_div_same, div_add_div_same, div_add_div_same]
      exact div_self hS
    linear_combination usable_area_of p * h1
  · intro h
    rw [calculate_areas_auto_zero p hm h]
    exact ⟨rfl, rfl, rfl, rfl, rfl⟩

/-- A record whose four shares are all zero: the share sum is below the
`1e-9` cutoff. -/
def zeroShareParams : WarehouseParams :=
  { sampleParams with
    storage_share := 0
    loan_share := 0
    vip_share := 0
    short_term_share := 0 }

/-- Witness for C10: both branches exercised on concrete records. -/
theorem C10_proportional_normalization_witness :
    (epsShare ≤ total_share sampleParams ∧
      (calculate_areas sampleParams).storage_area =
        usable_area_of sampleParams *
          (sampleParams.storage_share / total_share sampleParams) ∧
      (calculate_areas sampleParams).loan_area =
        usable_area_of sampleParams *
          (sampleParams.loan_share / total_share sampleParams) ∧
      (calculate_areas sampleParams).vip_area =
        usable_area_of sampleParams *
          (sampleParams.vip_share / total_share sampleParams) ∧
      (calculate_areas sampleParams).short_term_area =
        usable_area_of sampleParams *
          (sampleParams.short_term_share / total_share sampleParams) ∧
      (calculate_areas sampleParams).storage_area +
        (calculate_areas sampleParams).loan_area +
        (calculate_areas sampleParams).vip_area +
        (calculate_areas sampleParams).short_term_area =
        (calculate_areas sampleParams).usable_area) ∧
    (total_share zeroShareParams < epsShare ∧
      (calculate_areas zeroShareParams).storage_area = 0 ∧
      (calculate_areas zeroShareParams).loan_area = 0 ∧
      (calculate_areas zeroShareParams).vip_area = 0 ∧
      (calculate_areas zeroShareParams).short_term_area = 0 ∧
      (calculate_areas zeroShareParams).usable_area =
        zeroShareParams.total_area * zeroShareParams.useful_area_fraction) := by
  constructor
  · have h : epsShare ≤ total_share sampleParams := by
      norm_num [epsShare, total_share, sampleParams]
    exact ⟨h, (C10_proportional_normalization sampleParams rfl).1 h⟩
  · have h : total_share zeroShareParams < epsShare := by
      norm_num [epsShare, total_share, zeroShareParams, sampleParams]
    exact ⟨h, (C10_proportional_normalization zeroShareParams rfl).2 h⟩

/-- Claim C6 (amended): in manual mode, a record whose manual areas sum
to more than the usable area *and whose manual sum is positive* has all
four areas scaled by exactly `usable_area / sum_manual`; a record whose
manual sum does not exceed the usable area passes through unchanged. -/
theorem C6_manual_overflow_scaling (p : WarehouseParams)
    (hm : ¬ p.mode = autoMode) :
    (usable_area_of p < total_manual p ∧ 0 < total_manual p →
      calculate_areas p =
        { usable_area := usable_area_of p
          storage_area := p.storage_area_manual * (usable_area_of p / total_manual p)
          loan_area := p.loan_area_manual * (usable_area_of p / total_manual p)
          vip_area := p.vip_area_manual * (usable_area_of p / total_manual p)
          short_term_area :=
            p.short_term_area_manual * (usable_area_of p / total_manual p) }) ∧
    (total_manual p ≤ usable_area_of p →
      calculate_areas p =
        { usable_area := usable_area_of p
          storage_area := p.storage_area_manual
          loan_area := p.loan_area_manual
          vip_area := p.vip_area_manual
          short_term_area := p.short_term_area_manual }) :=
  ⟨fun h => calculate_areas_manual_scaled p hm h.1 h.2,
   fun h => calculate_areas_manual_pass p hm h⟩

/-- The spec's own overflow example: manual areas `(10, 20, 30, 40)`
against usable area `80`. -/
def manualSampleParams : WarehouseParams :=
  { sampleParams with
    mode := "Ручной"
    total_area := 160
    storage_area_manual := 10
    loan_area_manual := 20
    vip_area_manual := 30
    short_term_area_manual := 40 }

/-- Witness for C6: the spec example scales to exactly `(8, 16, 24, 32)`. -/
theorem C6_manual_overflow_scaling_witness :
    (usable_area_of manualSampleParams < total_manual manualSampleParams ∧
      0 < total_manual manualSampleParams) ∧
    calculate_areas manualSampleParams =
      { usable_area := 80, storage_area := 8, loan_area := 16, vip_area := 24,
        short_term_area := 32 } := by
  have hcond : usable_area_of manualSampleParams < total_manual manualSampleParams ∧
      0 < total_manual manualSampleParams := by
    constructor <;> norm_num [usable_area_of, total_manual, manualSampleParams, sampleParams]
  refine ⟨hcond, ?_⟩
  rw [(C6_manual_overflow_scaling manualSampleParams
    (by simp [manualSampleParams, sampleParams, autoMode])).1 hcond]
  norm_num [AreasResult.mk.injEq, usable_area_of, total_manual, manualSampleParams,
    sampleParams]

/-- A record outside the amended hypothesis: usable area is negative and
the manual sum is negative yet still exceeds the usable area. -/
def negManualParams : WarehouseParams :=
  { sampleParams with
    mode := "Ручной"
    total_area := -80
    useful_area_fraction := 1
    storage_area_manual := -5
    loan_area_manual := 0
    vip_area_manual := 0
    short_term_area_manual := 0 }

/-- Counterexample to C6 as stated: this record's manual areas sum to
`-5`, which exceeds the usable area `-80`, yet the allocator returns the
areas unchanged instead of scaling them by `usable / sum = 16`. -/
theorem C6_counterexample :
    usable_area_of negManualParams < total_manual negManualParams ∧
    (calculate_areas negManualParams).storage_area ≠
      negManualParams.storage_area_manual *
        (usable_area_of negManualParams / total_manual negManualParams) := by
  constructor
  · norm_num [usable_area_of, total_manual, negManualParams, sampleParams]
  · rw [calculate_areas_manual_nonpos negManualParams
      (by simp [negManualParams, sampleParams, autoMode])
      (by norm_num [total_manual, negManualParams, sampleParams])]
    norm_num [usable_area_of, total_manual, negManualParams, sampleParams]

/-- Claim C7 (amended): proportional allocation is scale-invariant for
every positive constant whose scaling keeps the share sum on the same
side of the `1e-9` cutoff (both sums at least `1e-9`, or both below). -/
theorem C7_scale_invariance (p : WarehouseParams) (c : ℚ)
    (hm : p.mode = autoMode) (hc : 0 < c)
    (hsame : (epsShare ≤ total_share p ∧ epsShare ≤ c * total_share p) ∨
      (total_share p < epsShare ∧ c * total_share p < epsShare)) :
    calculate_areas (scaleShares c p) = calculate_areas p := by
  have hmode : (scaleShares c p).mode = autoMode := hm
  have hts : total_share (scaleShares c p) = c * total_share p := by
    unfold total_share scaleShares
    dsimp only
    ring
  rcases hsame with ⟨h1, h2⟩ | ⟨h1, h2⟩
  · have h2' : epsShare ≤ total_share (scaleShares c p) := by rwa [hts]
    rw [calculate_areas_auto_pos (scaleShares c p) hmode h2',
      calculate_areas_auto_pos p hm h1, hts]
    have hU : usable_area_of (scaleShares c p) = usable_area_of p := rfl
    rw [hU]
    have hdiv : ∀ x : ℚ, c * x / (c * total_share p) = x / total_share p :=
      fun x => mul_div_mul_left x (total_share p) (ne_of_gt hc)
    have hs1 : (scaleShares c p).storage_share = c * p.storage_share := rfl
    have hs2 : (scaleShares c p).loan_share = c * p.loan_share := rfl
    have hs3 : (scaleShares c p).vip_share = c * p.vip_share := rfl
    have hs4 : (scaleShares c p).short_term_share = c * p.short_term_share := rfl
    rw [hs1, hs2, hs3, hs4, hdiv, hdiv, hdiv, hdiv]
  · have h2' : total_share (scaleShares c p) < epsShare := by rwa [hts]
    rw [calculate_areas_auto_zero (scaleShares c p) hmode h2',
      calculate_areas_auto_zero p hm h1]
    rfl

/-- Witness for C7: doubling the test record's shares (sum `1` to sum
`2`, both above the cutoff) leaves the allocation unchanged. -/
theorem C7_scale_invariance_witness :
    (0:ℚ) < 2 ∧
    calculate_areas (scaleShares 2 sampleParams) = calculate_areas sampleParams :=
  ⟨by norm_num,
    C7_scale_invariance sampleParams 2 rfl (by norm_num)
      (Or.inl ⟨by norm_num [epsShare, total_share, sampleParams],
        by norm_num [epsShare, total_share, sampleParams]⟩)⟩

/-- A record whose share sum `2e-9` sits just above the cutoff, so that
scaling by `1/4` pushes the sum below it. -/
def thresholdShareParams : WarehouseParams :=
  { sampleParams with
    storage_share := 1 / 500000000
    loan_share := 0
    vip_share := 0
    short_term_share := 0 }

/-- Counterexample to C7 as stated: scaling this record's shares by the
positive constant `1/4` crosses the `1e-9` cutoff, so the allocation
changes (storage area drops from `50` to `0`). -/
theorem C7_counterexample :
    (0:ℚ) < 1 / 4 ∧
    calculate_areas (scaleShares (1 / 4) thresholdShareParams) ≠
      calculate_areas thresholdShareParams := by
  refine ⟨by norm_num, ?_⟩
  rw [calculate_areas_auto_zero (scaleShares (1 / 4) thresholdShareParams) rfl
      (by norm_num [total_share, scaleShares, thresholdShareParams, sampleParams, epsShare]),
    calculate_areas_auto_pos thresholdShareParams rfl
      (by norm_num [total_share, thresholdShareParams, sampleParams, epsShare])]
  intro hEq
  have hst := congrArg AreasResult.storage_area hEq
  norm_num [usable_area_of, total_share, thresholdShareParams, sampleParams] at hst

/-- Claim C2 (amended): given total area > 0 and 0 < useful-area ratio
≤ 1, the proportional-mode validator checks its rules in the source's
fixed order with the first failure winning, rejecting exactly when the
*absolute value* of the share sum is below `1e-9` or the sum exceeds
`1.0`; a sufficiently negative share sum is therefore accepted. -/
theorem C2_validator_proportional_rules (p : WarehouseParams)
    (h1 : 0 < p.total_area) (h2 : 0 < p.useful_area_fraction)
    (h3 : p.useful_area_fraction ≤ 1) (hm : p.mode = autoMode) :
    validate_inputs p =
      if |total_share p| < epsShare then
        (false, "Сумма долей видов хранения должна быть больше нуля.")
      else if 1 < total_share p then
        (false, "Сумма долей видов хранения не должна превышать 100%.")
      else
        (true, "") := by
  unfold validate_inputs total_share
  dsimp only
  rw [if_neg (not_le.mpr h1), if_neg (not_not_intro ⟨h2, h3⟩), if_pos hm]

/-- Witness for C2: the test suite's record (share sum `1`) passes all
three proportional-mode rules. -/
theorem C2_validator_proportional_rules_witness :
    validate_inputs sampleParams = (true, "") := by
  rw [C2_validator_proportional_rules sampleParams
    (by norm_num [sampleParams]) (by norm_num [sampleParams])
    (by norm_num [sampleParams]) rfl]
  norm_num [total_share, sampleParams, epsShare, abs_of_nonneg]

/-- A proportional-mode record whose share sum is `-1/2`. -/
def negShareParams : WarehouseParams :=
  { sampleParams with
    storage_share := -(1 / 2)
    loan_share := 0
    vip_share := 0
    short_term_share := 0 }

/-- Counterexample to C2 as stated: this record's share sum is negative
(hence ≤ 1e-9), total area and ratio are in range, yet the validator
accepts it, because the code tests `abs(total_share) < 1e-9`, not
`total_share ≤ 1e-9`. -/
theorem C2_counterexample :
    total_share negShareParams < 0 ∧
    (validate_inputs negShareParams).1 = true := by
  constructor
  · norm_num [total_share, negShareParams, sampleParams]
  · rw [C2_validator_proportional_rules negShareParams
      (by norm_num [negShareParams, sampleParams])
      (by norm_num [negShareParams, sampleParams])
      (by norm_num [negShareParams, sampleParams]) rfl]
    norm_num [total_share, negShareParams, sampleParams, epsShare, abs_of_nonpos]

/-- Claim C3: the break-even calculator returns positive infinity when
total income is zero, and otherwise exactly
`total_monthly_expenses + one_time_total / time_horizon` for a positive
horizon, with a zero one-time contribution for a non-positive horizon;
it is a total function. -/
theorem C3_total_bep (fin : FinancialResult) (p : WarehouseParams) :
    (fin.total_income = 0 → calculate_total_bep fin p = BepResult.posInf) ∧
    (fin.total_income ≠ 0 →
      calculate_total_bep fin p =
        BepResult.val (fin.total_expenses +
          (if 0 < p.time_horizon then
            p.one_time_expenses / (p.time_horizon : ℚ) else 0))) := by
  constructor <;> intro h <;>
    · unfold calculate_total_bep
      dsimp only
      first
        | rw [if_pos h]
        | rw [if_neg h]

/-- A financial result with zero income and expenses `500`. -/
def zeroIncomeFin : FinancialResult :=
  { total_income := 0, total_expenses := 500, profit := -500, storage_income := 0,
    short_term_income := 0, realization_income := 0,
    loan_income_after_realization := 0, vip_income := 0, marketing_income := 0,
    daily_storage_fee := 0, storage_realization := 0, loan_realization := 0,
    vip_realization := 0, short_term_realization := 0, storage_items := 0,
    loan_items := 0, vip_items := 0, short_term_items := 0 }

/-- The same financial result with income `120000` instead of zero. -/
def posIncomeFin : FinancialResult :=
  { zeroIncomeFin with total_income := 120000 }

/-- Witness for C3: both branches at concrete inputs (the stored
one-time expense on `sampleParams` is `0` and the horizon is `6`). -/
theorem C3_total_bep_witness :
    calculate_total_bep zeroIncomeFin sampleParams = BepResult.posInf ∧
    calculate_total_bep posIncomeFin sampleParams = BepResult.val 500 := by
  constructor
  · exact (C3_total_bep zeroIncomeFin sampleParams).1 rfl
  · rw [(C3_total_bep posIncomeFin sampleParams).2 (by norm_num [posIncomeFin, zeroIncomeFin])]
    norm_num [sampleParams, posIncomeFin, zeroIncomeFin]

/-- Claim C5: profit equals `total_income − total_monthly_expense −
one_time_total / time_horizon` for a positive horizon and
`total_income − total_monthly_expense` (one-time costs excluded) for a
non-positive horizon, without raising in either case. -/
theorem C5_profit_amortization (p : WarehouseParams) (d : Bool) :
    (0 < p.time_horizon →
      (calculate_financials p d).profit =
        (calculate_financials p d).total_income -
          (calculate_financials p d).total_expenses -
          one_time_total p / (p.time_horizon : ℚ)) ∧
    (p.time_horizon ≤ 0 →
      (calculate_financials p d).profit =
        (calculate_financials p d).total_income -
          (calculate_financials p d).total_expenses) := by
  constructor <;> intro h
  · unfold calculate_financials
    dsimp only
    rw [if_pos h]
  · unfold calculate_financials
    dsimp only
    rw [if_neg (not_lt.mpr h)]

/-- Witness for C5 at the test suite's record (horizon `6`). -/
theorem C5_profit_amortization_witness :
    (calculate_financials sampleParams false).profit =
      (calculate_financials sampleParams false).total_income -
        (calculate_financials sampleParams false).total_expenses -
        one_time_total sampleParams / (sampleParams.time_horizon : ℚ) :=
  (C5_profit_amortization sampleParams false).1 (by norm_num [sampleParams])

/-- Claim C8: the IRR calculator is total and returns exactly `0`
whenever the external root-finder raises, fails to converge, or yields
an undefined (`None` or NaN) result, for every cash-flow list and every
solver behavior. -/
theorem C8_irr_absorbs_failure (solver : List ℚ → IrrOutcome)
    (cash_flows : List ℚ) (h : (solver cash_flows).isFailure = true) :
    calculate_irr solver cash_flows = 0 := by
  rcases hs : solver cash_flows with x | _ | _ | _
  · rw [hs] at h
    simp [IrrOutcome.isFailure] at h
  all_goals
    unfold calculate_irr
    rw [hs]

/-- A solver that always raises. -/
def raisingSolver : List ℚ → IrrOutcome := fun _ => IrrOutcome.raised

/-- Witness for C8 on the test suite's cash-flow list with a solver that
raises. -/
theorem C8_irr_absorbs_failure_witness :
    calculate_irr raisingSolver [-100000, 30000, 40000, 50000] = 0 :=
  C8_irr_absorbs_failure raisingSolver [-100000, 30000, 40000, 50000] rfl

/-- Claim C9: the minimum-loan-per-item solver returns `0` when the loan
item count is not positive; otherwise `(E / L) / (r * 30)` floored at
`0`, where `E` adds the amortized one-time expenses only for a positive
horizon and `r` falls back to `0.0001` for a non-positive configured
rate. -/
theorem C9_min_loan_formula (p : WarehouseParams) (fin : FinancialResult) :
    min_loan_amount_for_bep p fin =
      if fin.loan_items ≤ 0 then 0
      else
        max (((if 0 < p.time_horizon then
              fin.total_expenses + p.one_time_expenses / (p.time_horizon : ℚ)
            else fin.total_expenses) / fin.loan_items) /
          ((if 0 < p.loan_interest_rate then p.loan_interest_rate / 100
            else 1 / 10000) * 30)) 0 := rfl

/-- Claim C4: the Monte Carlo simulator is deterministic in its
arguments: the output table is a function of the explicit argument tuple
(including the seed) alone, independent of the pre-existing global
generator state, because the generator is reseeded from the explicit
seed before any draw. -/
theorem C4_monte_carlo_deterministic (rng : RngImpl)
    (base_income base_expenses : ℚ) (time_horizon simulations : ℕ)
    (deviation : ℚ) (seed : ℤ)
    (monthly_income_growth monthly_expenses_growth : ℚ) (g1 g2 : ℕ) :
    monte_carlo_simulation rng base_income base_expenses time_horizon
        simulations deviation seed monthly_income_growth
        monthly_expenses_growth g1 =
      monte_carlo_simulation rng base_income base_expenses time_horizon
        simulations deviation seed monthly_income_growth
        monthly_expenses_growth g2 := rfl
